import Mathlib

/-!
Verification of the LLTF Contrast device-session layer
(`src/lltfpy/lltf.py`, `src/lltfpy/lltfdll.py`) of the
Wavecal_Automation repository.

The Python code drives a vendor shared library through ctypes.  The
embedding models the native library as a record of stub functions
(`NativeLib`), the session as an explicit state (`LLTFState`, the
stored handle being `none` in the closed state), and every method of
the hardware class `LLTF` as a function returning the Python result
(`Except PyError`), the updated session state, and the list of native
calls and log records the method performed, in order
(`List NativeEvent`).  Wavelengths, which are Python floats in the
source, are modelled as rationals; every claim settled here concerns
control flow and call sequencing, not rounding.

Each method of the class opens with a ctypes declaration preamble
(`argtypes`/`restype` assignments).  CPython ctypes validates these
eagerly: `POINTER(X)` requires `X` to carry ctypes storage info, and
every entry of an `argtypes` list must be a ctypes type or expose a
`from_param` method.  `PE_HANDLE` and `CPE_HANDLE` are plain Python
classes satisfying neither, so each preamble that mentions them
raises `TypeError` at the declaration itself, before any state check
and before any native call; only `library_version`, which assigns no
`argtypes`, survives its preamble.  The actual-method definitions
below reflect this; the written-but-unreachable bodies are translated
separately as definitions whose names carry `AsWritten` or
`SansPreamble`, each documenting the counterfactual premise under
which the source text would execute.
-/

/-- Status enumeration `PE_STATUS` (src/lltfpy/lltf.py lines 13-31):
success plus thirteen error conditions, one constructor per member. -/
inductive PE_STATUS where
  | PE_SUCCESS
  | PE_INVALID_HANDLE
  | PE_FAILURE
  | PE_MISSING_CONFIGFILE
  | PE_INVALID_CONFIGURATION
  | PE_INVALID_WAVELENGTH
  | PE_MISSING_HARMONIC_FILTER
  | PE_INVALID_FILTER
  | PE_UNKNOWN
  | PE_INVALID_GRATING
  | PE_INVALID_BUFFER
  | PE_INVALID_BUFFER_SIZE
  | PE_UNSUPPORTED_CONFIGURATION
  | PE_NO_FILTER_CONNECTED
deriving DecidableEq, Repr

/-- Integer value of each `PE_STATUS` member as declared in the source
enumeration (`PE_SUCCESS = 0` through `PE_NO_FILTER_CONNECTED = 13`). -/
def PE_STATUS.code : PE_STATUS → Int
  | .PE_SUCCESS => 0
  | .PE_INVALID_HANDLE => 1
  | .PE_FAILURE => 2
  | .PE_MISSING_CONFIGFILE => 3
  | .PE_INVALID_CONFIGURATION => 4
  | .PE_INVALID_WAVELENGTH => 5
  | .PE_MISSING_HARMONIC_FILTER => 6
  | .PE_INVALID_FILTER => 7
  | .PE_UNKNOWN => 8
  | .PE_INVALID_GRATING => 9
  | .PE_INVALID_BUFFER => 10
  | .PE_INVALID_BUFFER_SIZE => 11
  | .PE_UNSUPPORTED_CONFIGURATION => 12
  | .PE_NO_FILTER_CONNECTED => 13

/-- Python truthiness of a `PE_STATUS` value: an `IntEnum` member is
truthy exactly when its integer value is nonzero, so `PE_SUCCESS` (0)
is the unique falsy member. -/
def PE_STATUS.truthy (st : PE_STATUS) : Bool :=
  st.code ≠ 0

/-- Exceptions the modelled methods can raise: `TypeError` (raised by
Python itself — eagerly by the ctypes declaration preambles that pass
the plain classes `PE_HANDLE`/`CPE_HANDLE` where ctypes requires
storage info or a `from_param` method, by a zero-argument call of a
one-parameter initialiser, or by unpacking `None`) and
`LLTFError(msg)` (src/lltfpy/lltf.py lines 10-11). -/
inductive PyError where
  | typeError
  | lltfError (msg : String)
deriving DecidableEq, Repr

/-- One observable action of a method: a native call (with the handle
argument it passed, `none` standing for Python `None`), a debug log
record, or the Python-level attempt to construct `PE_HANDLE()`
(recorded so that reaching line 109 of lltf.py is observable in a
trace). -/
inductive NativeEvent where
  | callCreate (conffile : String)
  | callGetSystemName (h : Option Nat) (index : Int)
  | callOpen (h : Option Nat) (name : String)
  | callClose (h : Option Nat)
  | callDestroy (h : Option Nat)
  | callGetLibraryVersion
  | callGetSystemCount (h : Option Nat)
  | callGetWavelength (h : Option Nat)
  | callGetWavelengthRange (h : Option Nat)
  | callSetWavelength (h : Option Nat) (w : Rat)
  | callGetGrating (h : Option Nat)
  | callGetGratingName (h : Option Nat) (index : Int)
  | callGetGratingCount (h : Option Nat)
  | callHasHarmonicFilter (h : Option Nat)
  | callGetHarmonicFilterEnabled (h : Option Nat)
  | logDebug (msg : String)
  | constructPEHandle
deriving DecidableEq, Repr

/-- Whether an event is the native handle-creation call `PE_Create`. -/
def NativeEvent.isCreate : NativeEvent → Bool
  | .callCreate _ => true
  | _ => false

/-- Whether an event is the native handle-destruction call `PE_Destroy`. -/
def NativeEvent.isDestroy : NativeEvent → Bool
  | .callDestroy _ => true
  | _ => false

/-- Whether an event is the native `PE_SetWavelength` call. -/
def NativeEvent.isSetWavelength : NativeEvent → Bool
  | .callSetWavelength _ _ => true
  | _ => false

/-- Whether an event is any native call (everything except a log
record and the Python-level construction attempt). -/
def NativeEvent.isNativeCall : NativeEvent → Bool
  | .logDebug _ => false
  | .constructPEHandle => false
  | _ => true

/-- Stub native binding: one pure function per vendor entry point used
by `src/lltfpy/lltf.py`, each returning the status code and the values
the C function would write through its out-parameters.  Handle
arguments are `Option Nat` because the Python code passes whatever
object is stored in `self._handle`, including `None`. -/
structure NativeLib where
  peCreate : String → PE_STATUS × Nat
  peGetSystemName : Option Nat → Int → PE_STATUS × String
  peOpen : Option Nat → String → PE_STATUS
  peClose : Option Nat → PE_STATUS
  peDestroy : Option Nat → PE_STATUS
  peGetLibraryVersion : Int
  peGetSystemCount : Option Nat → Int
  peGetWavelength : Option Nat → PE_STATUS × Rat
  peGetWavelengthRange : Option Nat → PE_STATUS × Rat × Rat
  peSetWavelength : Option Nat → Rat → PE_STATUS
  peGetGrating : Option Nat → PE_STATUS × Int
  peGetGratingName : Option Nat → Int → PE_STATUS × String
  peGetGratingCount : Option Nat → PE_STATUS × Int
  peHasHarmonicFilter : Option Nat → Int
  peGetHarmonicFilterEnabled : Option Nat → PE_STATUS × Int

/-- Session state of an `LLTF` instance: the configuration-file path
set in `__init__` and the stored native handle `self._handle`
(`none` = closed, exactly as `__init__` initialises it). -/
structure LLTFState where
  conffile : String
  handle : Option Nat
deriving DecidableEq, Repr

/-- Result of running one method: the Python outcome (return value or
raised exception), the session state afterwards, and the events the
method performed in order. -/
def MethodResult (α : Type) : Type :=
  Except PyError α × LLTFState × List NativeEvent

/-- Method `LLTF._open` (src/lltfpy/lltf.py lines 75-129).  The
ctypes declaration preamble runs before any state check; its line 92,
`pe_Create.argtypes = [c_char_p, POINTER(PE_HANDLE)]`, raises
`TypeError` at `POINTER(PE_HANDLE)` because `PE_HANDLE` (lines 39-45)
is a plain Python class without ctypes storage info and `POINTER`
checks its argument eagerly.  Every call to the method therefore
raises `TypeError` before the `self._handle` test, before any native
call, and before the `PE_HANDLE()` construction on line 109; both
branches of the body (translated as `LLTF.openBodyAsWritten`) are
unreachable, the "Already open." log included. -/
def LLTF._open (_lib : NativeLib) (s : LLTFState) (_index : Int) :
    MethodResult (Option (Nat × String)) :=
  (Except.error PyError.typeError, s, [])

/-- The body of `LLTF._open` as written (src/lltfpy/lltf.py lines
105-129), i.e. the behaviour the method would have if its ctypes
declaration preamble succeeded.  With no stored handle the body
executes `peHandle_i = PE_HANDLE()` (line 109, recorded as a
`constructPEHandle` event); `PE_HANDLE.__init__` requires the
positional parameter `c_void_p`, so the zero-argument construction
raises `TypeError`, and the statements after it (lines 110-126,
translated as `LLTF.openAsWritten`) still do not run.  With a stored
handle the body only logs "Already open." and falls off the end,
returning `None`. -/
def LLTF.openBodyAsWritten (_lib : NativeLib) (s : LLTFState) (_index : Int) :
    MethodResult (Option (Nat × String)) :=
  match s.handle with
  | none =>
      (Except.error PyError.typeError, s, [NativeEvent.constructPEHandle])
  | some _ =>
      (Except.ok none, s, [NativeEvent.logDebug "Already open."])

/-- The handle-creation sequence of `LLTF._open` as literally written
(src/lltfpy/lltf.py lines 106-126), i.e. the behaviour the `none`
branch would have if both the ctypes declaration preamble and the
`PE_HANDLE()` construction succeeded, the construction yielding an
out-parameter cell: create the handle, raising "Could not create
connection to LLTF." on non-success; retrieve the system name,
raising "Could not retrieve LLTF name." on non-success; open the
communication channel, raising "Could not open connection to LLTF."
on non-success; on full success store the handle and return it with
the name.  The method contains no `pe_Destroy` call on any path. -/
def LLTF.openAsWritten (lib : NativeLib) (s : LLTFState) (index : Int) :
    MethodResult (Option (Nat × String)) :=
  let conffile := s.conffile
  let createRes := lib.peCreate conffile
  let create_status := createRes.1
  let peHandle := createRes.2
  let ev1 := [NativeEvent.callCreate conffile]
  if create_status ≠ PE_STATUS.PE_SUCCESS then
    (Except.error (PyError.lltfError "Could not create connection to LLTF."), s, ev1)
  else
    let nameRes := lib.peGetSystemName (some peHandle) index
    let name_status := nameRes.1
    let name := nameRes.2
    let ev2 := ev1 ++ [NativeEvent.callGetSystemName (some peHandle) index]
    if name_status ≠ PE_STATUS.PE_SUCCESS then
      (Except.error (PyError.lltfError "Could not retrieve LLTF name."), s, ev2)
    else
      let open_status := lib.peOpen (some peHandle) name
      let ev3 := ev2 ++ [NativeEvent.callOpen (some peHandle) name]
      if open_status ≠ PE_STATUS.PE_SUCCESS then
        (Except.error (PyError.lltfError "Could not open connection to LLTF."), s, ev3)
      else
        (Except.ok (some (peHandle, name)), { s with handle := some peHandle }, ev3)

/-- Method `LLTF._close` (src/lltfpy/lltf.py lines 131-166).  The
declaration `pe_Close.argtypes = [PE_HANDLE]` (line 145) raises
`TypeError` eagerly (`PE_HANDLE` has no `from_param` method), before
the `self._handle` test, so every call to the method raises
`TypeError` with no native call, no log record and no state change:
neither branch of the body (translated as `LLTF.closeBodyAsWritten`)
is reachable, the stored handle is never cleared, and the
"Already closed." log is never produced. -/
def LLTF._close (_lib : NativeLib) (s : LLTFState) : MethodResult Unit :=
  (Except.error PyError.typeError, s, [])

/-- The body of `LLTF._close` as written (src/lltfpy/lltf.py lines
153-166), i.e. the behaviour the method would have if its ctypes
declaration preamble succeeded.  With a stored handle: call
`pe_Close`, raising "Could not close system." on non-success; then
`pe_Destroy`, raising "Could not destroy system." on non-success;
only after both succeed is `self._handle` set to `None`.  With no
stored handle: log "Already closed." and do nothing. -/
def LLTF.closeBodyAsWritten (lib : NativeLib) (s : LLTFState) : MethodResult Unit :=
  match s.handle with
  | some h =>
      let closestatus := lib.peClose (some h)
      let ev1 := [NativeEvent.callClose (some h)]
      if closestatus ≠ PE_STATUS.PE_SUCCESS then
        (Except.error (PyError.lltfError "Could not close system."), s, ev1)
      else
        let destroystatus := lib.peDestroy (some h)
        let ev2 := ev1 ++ [NativeEvent.callDestroy (some h)]
        if destroystatus ≠ PE_STATUS.PE_SUCCESS then
          (Except.error (PyError.lltfError "Could not destroy system."), s, ev2)
        else
          (Except.ok (), { s with handle := none }, ev2)
  | none =>
      (Except.ok (), s, [NativeEvent.logDebug "Already closed."])

/-- Method `LLTF.get_wave` (src/lltfpy/lltf.py lines 305-330).  The
declaration `pe_GetWavelength.argtypes = [CPE_HANDLE, POINTER(c_double)]`
(line 322) raises `TypeError` eagerly (`CPE_HANDLE` has no
`from_param` method), so every call raises `TypeError` before the
native call: `PE_GetWavelength` is never invoked, in any session
state, and no state check of any kind runs. -/
def LLTF.get_wave (_lib : NativeLib) (s : LLTFState) : MethodResult Rat :=
  (Except.error PyError.typeError, s, [])

/-- The body of `LLTF.get_wave` as written (src/lltfpy/lltf.py lines
317-330), i.e. the behaviour after the declarations, had they
succeeded: read `peHandle = self._handle` (whatever it is, including
`None`), call `pe_GetWavelength(peHandle, byref(wavelength_i))`, and
raise "Could not retrieve wavelength." on non-success.  No state
check precedes the native call. -/
def LLTF.get_waveBodyAsWritten (lib : NativeLib) (s : LLTFState) : MethodResult Rat :=
  let peHandle := s.handle
  let r := lib.peGetWavelength peHandle
  let ev := [NativeEvent.callGetWavelength peHandle]
  if r.1 ≠ PE_STATUS.PE_SUCCESS then
    (Except.error (PyError.lltfError "Could not retrieve wavelength."), s, ev)
  else
    (Except.ok r.2, s, ev)

/-- Method `LLTF.get_range` (src/lltfpy/lltf.py lines 332-362).  The
declaration of line 350, `pe_GetWavelengthRange.argtypes =
[CPE_HANDLE, POINTER(c_double), POINTER(c_double)]`, raises
`TypeError` eagerly, so every call raises `TypeError` before the
native call; the written body (call the native with the stored handle
and raise "Could not retrieve wavelength range." on non-success,
lines 354-362) is unreachable. -/
def LLTF.get_range (_lib : NativeLib) (s : LLTFState) : MethodResult (Rat × Rat) :=
  (Except.error PyError.typeError, s, [])

/-- Method `LLTF.library_version` (src/lltfpy/lltf.py lines 263-280):
call `PE_GetLibraryVersion` and return its plain integer result.
This is the one method of the class whose ctypes preamble succeeds:
it assigns only `restype = c_int` (line 277, a valid ctypes type) and
never assigns `argtypes`, so the native call really happens. -/
def LLTF.library_version (lib : NativeLib) (s : LLTFState) : MethodResult Int :=
  (Except.ok lib.peGetLibraryVersion, s, [NativeEvent.callGetLibraryVersion])

/-- Method `LLTF.system_count` (src/lltfpy/lltf.py lines 282-303).
The declaration `pe_GetSystemCount.argtypes = [CPE_HANDLE]`
(line 299) raises `TypeError` eagerly, so every call raises
`TypeError` before the native call; the written body (return the
plain integer result of calling the native with the stored handle,
line 302) is unreachable. -/
def LLTF.system_count (_lib : NativeLib) (s : LLTFState) : MethodResult Int :=
  (Except.error PyError.typeError, s, [])

/-- Method `LLTF.grating` (src/lltfpy/lltf.py lines 364-412).  The
declaration `pe_GetGrating.argtypes = [PE_HANDLE, POINTER(c_int)]`
(line 383) raises `TypeError` eagerly, so every call raises
`TypeError` before any native call: none of the three native calls
nor the conflated status check of line 410 (translated as
`LLTF.gratingAsWritten`) is ever reached. -/
def LLTF.grating (_lib : NativeLib) (s : LLTFState) : MethodResult (Int × String × Int) :=
  (Except.error PyError.typeError, s, [])

/-- The body of `LLTF.grating` as written (src/lltfpy/lltf.py lines
396-412), i.e. the behaviour had the declarations succeeded: perform
all three native calls (`PE_GetGrating`, `PE_GetGratingName`,
`PE_getGratingCount`) unconditionally, then test the single boolean
expression of line 410,
`getgratingstatus or gratingnamestatus or gratingcountstatus != PE_STATUS.PE_SUCCESS`,
which by Python precedence is
truthy(getgratingstatus) ∨ truthy(gratingnamestatus) ∨ (gratingcountstatus ≠ success),
and raise the single generic message "Could not retrieve grating."
when it holds. -/
def LLTF.gratingAsWritten (lib : NativeLib) (s : LLTFState) : MethodResult (Int × String × Int) :=
  let peHandle := s.handle
  let r1 := lib.peGetGrating peHandle
  let getgratingstatus := r1.1
  let gindex := r1.2
  let r2 := lib.peGetGratingName peHandle gindex
  let gratingnamestatus := r2.1
  let gname := r2.2
  let r3 := lib.peGetGratingCount peHandle
  let gratingcountstatus := r3.1
  let gcount := r3.2
  let ev := [NativeEvent.callGetGrating peHandle,
             NativeEvent.callGetGratingName peHandle gindex,
             NativeEvent.callGetGratingCount peHandle]
  if getgratingstatus.truthy ∨ gratingnamestatus.truthy ∨
      gratingcountstatus ≠ PE_STATUS.PE_SUCCESS then
    (Except.error (PyError.lltfError "Could not retrieve grating."), s, ev)
  else
    (Except.ok (gindex, gname, gcount), s, ev)

/-- Method `LLTF.harmonic_filter` (src/lltfpy/lltf.py lines 415-447).
The declaration `pe_HasHarmonicFilter.argtypes = [CPE_HANDLE]`
(line 433) raises `TypeError` eagerly, so every call raises
`TypeError` before any native call; the rest of the preamble (which
would next look up the misnamed attribute
`library.pe_GetHarmonicFilterEnabled`, line 437) and the written body
(call `PE_HasHarmonicFilter` and `pe_GetHarmonicFilterEnabled`,
raising "Could not find harmonic filter status." on non-success,
lines 441-447) are unreachable. -/
def LLTF.harmonic_filter (_lib : NativeLib) (s : LLTFState) : MethodResult (Int × Int) :=
  (Except.error PyError.typeError, s, [])

/-- The statements of the `try` suite of `LLTF.set_wave` after the
unpacking assignment `self._handle, name = self._open()` has succeeded
(src/lltfpy/lltf.py lines 245-255), rendered under the counterfactual
that every ctypes declaration succeeds: call `pe_SetWavelength` with
the stored handle and the requested wavelength exactly as given (the
value is passed through unmodified, there is no tolerance comparison,
no read of the current wavelength beforehand, and no doubling), raise
"Could not set wavelength." on non-success, re-read the wavelength
via `self.get_wave()` — rendered by the same as-written convention,
`LLTF.get_waveBodyAsWritten` — raise "Calibration could not occur."
when the re-read value differs from the request under Python `!=`
(exact inequality), and return `True` otherwise. -/
def LLTF.set_waveAfterOpen (lib : NativeLib) (s : LLTFState) (wavelength : Rat) :
    MethodResult Bool :=
  let peHandle := s.handle
  let status := lib.peSetWavelength peHandle wavelength
  let ev1 := [NativeEvent.callSetWavelength peHandle wavelength]
  if status ≠ PE_STATUS.PE_SUCCESS then
    (Except.error (PyError.lltfError "Could not set wavelength."), s, ev1)
  else
    match LLTF.get_waveBodyAsWritten lib s with
    | (Except.error e, s2, ev2) => (Except.error e, s2, ev1 ++ ev2)
    | (Except.ok new_wave, s2, ev2) =>
        if new_wave ≠ wavelength then
          (Except.error (PyError.lltfError "Calibration could not occur."), s2, ev1 ++ ev2)
        else
          (Except.ok true, s2, ev1 ++ ev2)

/-- The whole `try` suite of `LLTF.set_wave` (src/lltfpy/lltf.py
lines 244-255).  The assignment `self._handle, name = self._open()`
raises `TypeError` when `_open` returns `None`, propagates whatever
`_open` raised, and otherwise stores the returned handle before the
suite continues.  In the real method this suite is never entered,
because the declaration on line 239 raises first (see
`LLTF.set_wave`). -/
def LLTF.set_waveTry (lib : NativeLib) (s : LLTFState) (wavelength : Rat) :
    MethodResult Bool :=
  match LLTF._open lib s 0 with
  | (Except.error e, s1, ev1) => (Except.error e, s1, ev1)
  | (Except.ok none, s1, ev1) => (Except.error PyError.typeError, s1, ev1)
  | (Except.ok (some (h, _name)), s1, ev1) =>
      let s2 := { s1 with handle := some h }
      match LLTF.set_waveAfterOpen lib s2 wavelength with
      | (r, s3, ev2) => (r, s3, ev1 ++ ev2)

/-- The try/except/finally of `LLTF.set_wave` (src/lltfpy/lltf.py
lines 242-261) as written, reachable only if the line-239 declaration
had succeeded: run the `try` suite; a successful suite returns `True`
with no closing; any exception is swallowed by the bare `except`,
which sets `close = True` so that the `finally` block runs
`self._close()`, after which the method returns `False` — unless
`_close` itself raises, in which case that exception propagates. -/
def LLTF.set_waveSansPreamble (lib : NativeLib) (s : LLTFState) (wavelength : Rat) :
    MethodResult Bool :=
  match LLTF.set_waveTry lib s wavelength with
  | (Except.ok b, s1, ev1) => (Except.ok b, s1, ev1)
  | (Except.error _, s1, ev1) =>
      match LLTF._close lib s1 with
      | (Except.error e2, s2, ev2) => (Except.error e2, s2, ev1 ++ ev2)
      | (Except.ok _, s2, ev2) => (Except.ok false, s2, ev1 ++ ev2)

/-- Method `LLTF.set_wave` (src/lltfpy/lltf.py lines 222-261).  The
declaration `pe_SetWavelength.argtypes = [PE_HANDLE, c_double]`
(line 239) raises `TypeError` eagerly, before the `try` block is
entered, so every call raises `TypeError` with no native call, no
log record, no `_close` attempt and no state change; the whole
try/except/finally (translated as `LLTF.set_waveSansPreamble`) is
unreachable, and the method never returns `True` or `False`. -/
def LLTF.set_wave (_lib : NativeLib) (s : LLTFState) (_wavelength : Rat) :
    MethodResult Bool :=
  (Except.error PyError.typeError, s, [])

/-- The dictionary assembled by `LLTF.status` on its success path
(src/lltfpy/lltf.py lines 202-213), one field per key. -/
structure StatusDict where
  system_name : String
  library_version : Int
  system_count : Int
  central_wavelength : Rat
  range_minimum : Rat
  range_maximum : Rat
  grating_index : Int
  grating_name : String
  grating_count : Int
  harmonic_filter_availability : Int
  harmonic_filter_status : Int
deriving DecidableEq, Repr

/-- Return value of `LLTF.status`: the tuple `(True, status)` on the
success path, the bare `False` after the exception path. -/
inductive StatusReturn where
  | success (d : StatusDict)
  | failed
deriving DecidableEq, Repr

/-- The statements of the `try` suite of `LLTF.status` after the
unpacking assignment has succeeded with handle `h` and system name
`name` (src/lltfpy/lltf.py lines 196-214): gather library version,
system count, wavelength, range, grating info and harmonic-filter
state in order, assemble the dictionary, and return it; any raising
sub-step aborts the suite.  The sub-calls are the actual methods, so
even if this fragment were reached, its first handle-using sub-call,
`self.system_count()`, would raise `TypeError` in its own preamble;
in the program the fragment is unreachable because `_open` raises
first. -/
def LLTF.statusAfterOpen (lib : NativeLib) (s : LLTFState) (name : String) :
    MethodResult StatusDict :=
  match LLTF.library_version lib s with
  | (Except.error e, s1, ev1) => (Except.error e, s1, ev1)
  | (Except.ok library_vers, s1, ev1) =>
    match LLTF.system_count lib s1 with
    | (Except.error e, s2, ev2) => (Except.error e, s2, ev1 ++ ev2)
    | (Except.ok count, s2, ev2) =>
      match LLTF.get_wave lib s2 with
      | (Except.error e, s3, ev3) => (Except.error e, s3, ev1 ++ ev2 ++ ev3)
      | (Except.ok wave, s3, ev3) =>
        match LLTF.get_range lib s3 with
        | (Except.error e, s4, ev4) => (Except.error e, s4, ev1 ++ ev2 ++ ev3 ++ ev4)
        | (Except.ok range, s4, ev4) =>
          match LLTF.grating lib s4 with
          | (Except.error e, s5, ev5) => (Except.error e, s5, ev1 ++ ev2 ++ ev3 ++ ev4 ++ ev5)
          | (Except.ok ginfo, s5, ev5) =>
            match LLTF.harmonic_filter lib s5 with
            | (Except.error e, s6, ev6) =>
                (Except.error e, s6, ev1 ++ ev2 ++ ev3 ++ ev4 ++ ev5 ++ ev6)
            | (Except.ok hinfo, s6, ev6) =>
                (Except.ok { system_name := name,
                             library_version := library_vers,
                             system_count := count,
                             central_wavelength := wave,
                             range_minimum := range.1,
                             range_maximum := range.2,
                             grating_index := ginfo.1,
                             grating_name := ginfo.2.1,
                             grating_count := ginfo.2.2,
                             harmonic_filter_availability := hinfo.1,
                             harmonic_filter_status := hinfo.2 },
                 s6, ev1 ++ ev2 ++ ev3 ++ ev4 ++ ev5 ++ ev6)

/-- The whole `try` suite of `LLTF.status` (src/lltfpy/lltf.py lines
195-214), beginning with `self._handle, name = self._open()`, whose
unpacking raises `TypeError` when `_open` returns `None`.  In every
execution the suite aborts at once: `_open` raises `TypeError` in its
own declaration preamble. -/
def LLTF.statusTry (lib : NativeLib) (s : LLTFState) : MethodResult StatusDict :=
  match LLTF._open lib s 0 with
  | (Except.error e, s1, ev1) => (Except.error e, s1, ev1)
  | (Except.ok none, s1, ev1) => (Except.error PyError.typeError, s1, ev1)
  | (Except.ok (some (h, name)), s1, ev1) =>
      let s2 := { s1 with handle := some h }
      match LLTF.statusAfterOpen lib s2 name with
      | (r, s3, ev2) => (r, s3, ev1 ++ ev2)

/-- Method `LLTF.status` (src/lltfpy/lltf.py lines 168-220): unlike
the other methods, `status` has no ctypes preamble of its own, so its
try/except/finally really executes.  A successful suite would return
`(True, status)` with no closing; any exception is swallowed by the
bare `except`, which sets `close = True` so that the `finally` block
runs `self._close()`, after which the method returns `False` — unless
`_close` itself raises, in which case that exception propagates out
of the method.  In every real execution the suite dies at the `_open`
preamble and then `_close` raises `TypeError` in its own preamble
inside `finally`, so the method always re-raises `TypeError`, having
performed no native call. -/
def LLTF.status (lib : NativeLib) (s : LLTFState) : MethodResult StatusReturn :=
  match LLTF.statusTry lib s with
  | (Except.ok d, s1, ev1) => (Except.ok (StatusReturn.success d), s1, ev1)
  | (Except.error _, s1, ev1) =>
      match LLTF._close lib s1 with
      | (Except.error e2, s2, ev2) => (Except.error e2, s2, ev1 ++ ev2)
      | (Except.ok _, s2, ev2) => (Except.ok StatusReturn.failed, s2, ev1 ++ ev2)

/-- Modelled from the spec: the status-code description lookup
`describe(code)`.  The only description lookup in the repository,
`LLTFContrast.LLTF_StatusStr` (src/lltfpy/lltfdll.py lines 136-153),
forwards to the vendor function `PE_GetStatusStr`, whose string
table is not part of the repository source; per the spec it "returns
the fixed message for a known code and a generic Unknown Error
fallback for any code outside the enumerated set".  The fixed message
for code 5 is pinned by the spec scenario ("Requested wavelength is
out of bounds."); the message for code 1 appears in the test
expectations of the repository (src/test/unittests.py line 146; the
message for code 5 also appears there, line 114); the remaining known
codes carry their enumeration meaning as descriptive text. -/
def describe (code : Int) : String :=
  if code = 0 then "Success."
  else if code = 1 then "Supplied handle is corrupted or has a NULL value."
  else if code = 2 then "Failure."
  else if code = 3 then "Configuration file is missing."
  else if code = 4 then "Configuration file is invalid."
  else if code = 5 then "Requested wavelength is out of bounds."
  else if code = 6 then "Harmonic filter is missing."
  else if code = 7 then "Filter is invalid."
  else if code = 8 then "Unknown status."
  else if code = 9 then "Grating is invalid."
  else if code = 10 then "Buffer is invalid."
  else if code = 11 then "Buffer size is invalid."
  else if code = 12 then "Configuration is unsupported."
  else if code = 13 then "No filter connected."
  else "Unknown Error"

/-- Stub binding on which every native entry point succeeds, with
fixed out-parameter values (handle 7, system name "SYS", wavelength
550, range 400 to 1000, grating index 1 named "G" out of 2, harmonic
filter available and enabled, library version 3, system count 1). -/
def allSuccessLib : NativeLib where
  peCreate := fun _ => (PE_STATUS.PE_SUCCESS, 7)
  peGetSystemName := fun _ _ => (PE_STATUS.PE_SUCCESS, "SYS")
  peOpen := fun _ _ => PE_STATUS.PE_SUCCESS
  peClose := fun _ => PE_STATUS.PE_SUCCESS
  peDestroy := fun _ => PE_STATUS.PE_SUCCESS
  peGetLibraryVersion := 3
  peGetSystemCount := fun _ => 1
  peGetWavelength := fun _ => (PE_STATUS.PE_SUCCESS, 550)
  peGetWavelengthRange := fun _ => (PE_STATUS.PE_SUCCESS, 400, 1000)
  peSetWavelength := fun _ _ => PE_STATUS.PE_SUCCESS
  peGetGrating := fun _ => (PE_STATUS.PE_SUCCESS, 1)
  peGetGratingName := fun _ _ => (PE_STATUS.PE_SUCCESS, "G")
  peGetGratingCount := fun _ => (PE_STATUS.PE_SUCCESS, 2)
  peHasHarmonicFilter := fun _ => 1
  peGetHarmonicFilterEnabled := fun _ => (PE_STATUS.PE_SUCCESS, 1)

/-- Stub binding for the name-retrieval failure scenario of the spec:
handle creation succeeds (handle 7) and `PE_GetSystemName` alone
returns a non-success status. -/
def nameFailLib : NativeLib :=
  { allSuccessLib with peGetSystemName := fun _ _ => (PE_STATUS.PE_FAILURE, "") }

/-- Stub binding whose native close call returns `PE_FAILURE`. -/
def closeFailLib : NativeLib :=
  { allSuccessLib with peClose := fun _ => PE_STATUS.PE_FAILURE }

/-- Stub binding whose native destroy call returns `PE_FAILURE`. -/
def destroyFailLib : NativeLib :=
  { allSuccessLib with peDestroy := fun _ => PE_STATUS.PE_FAILURE }

/-- Stub binding whose `PE_GetGrating` call returns
`PE_INVALID_GRATING` while every other entry point succeeds. -/
def gratingFailLib : NativeLib :=
  { allSuccessLib with peGetGrating := fun _ => (PE_STATUS.PE_INVALID_GRATING, 0) }

/-- Stub binding on which the device already sits at wavelength 600,
and reports 600 on every read. -/
def at600Lib : NativeLib :=
  { allSuccessLib with peGetWavelength := fun _ => (PE_STATUS.PE_SUCCESS, 600) }

/-- Stub binding whose `PE_getGratingCount` call returns
`PE_INVALID_GRATING` while every other entry point succeeds. -/
def gratingCountFailLib : NativeLib :=
  { allSuccessLib with peGetGratingCount := fun _ => (PE_STATUS.PE_INVALID_GRATING, 0) }

/-- Claim C1.  The claim states that when handle creation succeeds and
system-name retrieval fails, `_open` invokes the native destroy
exactly once before raising "cannot retrieve name".  The code does
not: under the stub binding in which only `PE_GetSystemName` fails,
the actual `_open` raises `TypeError` with no native call at all
(zero destroy calls), and even the literally written
create-name-open sequence of the method raises "Could not retrieve
LLTF name." having issued no `PE_Destroy` call, leaking the created
handle. -/
theorem c1_open_no_destroy_on_name_failure :
    LLTF._open nameFailLib ⟨"conf", none⟩ 0
      = (Except.error PyError.typeError, ⟨"conf", none⟩, []) ∧
    (LLTF.openAsWritten nameFailLib ⟨"conf", none⟩ 0).1
      = Except.error (PyError.lltfError "Could not retrieve LLTF name.") ∧
    (LLTF.openAsWritten nameFailLib ⟨"conf", none⟩ 0).2.2.filter NativeEvent.isDestroy
      = [] :=
  ⟨rfl, rfl, rfl⟩

/-- Claim C2.  The claim states that `status()` and `set_wave()`
perform the close operation on every exit path, leaving the session
in the closed state.  The code does not: on a session holding handle
7, even with a fully healthy binding, `set_wave` raises `TypeError`
at its line-239 declaration before the `try` block, so `_close` is
never even invoked, and `status` re-raises the `TypeError` that
`_close` itself hits in its own preamble inside `finally` — in both
cases no native close is performed (the event trace is empty) and
the handle stays stored, so the session is left open. -/
theorem c2_facade_exit_leaves_session_open :
    LLTF.status allSuccessLib ⟨"conf", some 7⟩
      = (Except.error PyError.typeError, ⟨"conf", some 7⟩, []) ∧
    LLTF.set_wave allSuccessLib ⟨"conf", some 7⟩ 600
      = (Except.error PyError.typeError, ⟨"conf", some 7⟩, []) :=
  ⟨rfl, rfl⟩

/-- Claim C3.  The claim states that after `open(); close()` the
session reports closed and a second `close()` from the closed state
is a no-op that logs a debug trace and never raises.  The code does
not: on a fresh session, `_close` after `_open` raises `TypeError` at
its line-145 declaration before the handle test, as does the second
`_close` — neither logs "Already closed." and both report an error
(the session does remain handle-less, but only because `_close` never
runs far enough to touch anything).  The written body of `_close`,
had its preamble succeeded, would have been the claimed silent no-op,
which is what the repository test close_with_no_handle expects. -/
theorem c3_close_not_idempotent_noop :
    LLTF._close allSuccessLib (LLTF._open allSuccessLib ⟨"conf", none⟩ 0).2.1
      = (Except.error PyError.typeError, ⟨"conf", none⟩, []) ∧
    LLTF._close allSuccessLib
        (LLTF._close allSuccessLib (LLTF._open allSuccessLib ⟨"conf", none⟩ 0).2.1).2.1
      = (Except.error PyError.typeError, ⟨"conf", none⟩, []) ∧
    LLTF.closeBodyAsWritten allSuccessLib ⟨"conf", none⟩
      = (Except.ok (), ⟨"conf", none⟩, [NativeEvent.logDebug "Already closed."]) :=
  ⟨rfl, rfl, rfl⟩

/-- Claim C4.  The claim states that `_close` from the open state
clears the stored handle unconditionally even when the native close
or destroy reports non-success.  The code does not: the real `_close`
raises `TypeError` at its line-145 declaration with no native call
and the handle still stored; and even its written body, had the
preamble succeeded, raises "Could not close system." (native close
failure) or "Could not destroy system." (native destroy failure)
before the line that clears `self._handle`, so on every teardown
failure the session keeps its handle and never transitions to the
closed state. -/
theorem c4_close_failure_keeps_handle :
    LLTF._close closeFailLib ⟨"conf", some 5⟩
      = (Except.error PyError.typeError, ⟨"conf", some 5⟩, []) ∧
    LLTF.closeBodyAsWritten closeFailLib ⟨"conf", some 5⟩
      = (Except.error (PyError.lltfError "Could not close system."), ⟨"conf", some 5⟩,
         [NativeEvent.callClose (some 5)]) ∧
    LLTF.closeBodyAsWritten destroyFailLib ⟨"conf", some 5⟩
      = (Except.error (PyError.lltfError "Could not destroy system."), ⟨"conf", some 5⟩,
         [NativeEvent.callClose (some 5), NativeEvent.callDestroy (some 5)]) :=
  ⟨rfl, rfl, rfl⟩

/-- Claim C5.  Every query or set operation invoked on a session in
the closed state (no stored handle) raises an error immediately —
the `TypeError` from its ctypes declaration preamble, a
programming-error exception — before any native call, so no native
call is ever performed with a null or absent handle and the session
state is untouched (the empty event trace shows no native call and
no log record). -/
theorem c5_closed_query_raises_before_native (lib : NativeLib) (s : LLTFState)
    (w : Rat) (h : s.handle = none) :
    LLTF.get_wave lib s = (Except.error PyError.typeError, s, []) ∧
    LLTF.get_range lib s = (Except.error PyError.typeError, s, []) ∧
    LLTF.system_count lib s = (Except.error PyError.typeError, s, []) ∧
    LLTF.grating lib s = (Except.error PyError.typeError, s, []) ∧
    LLTF.harmonic_filter lib s = (Except.error PyError.typeError, s, []) ∧
    LLTF.set_wave lib s w = (Except.error PyError.typeError, s, []) :=
  ⟨rfl, rfl, rfl, rfl, rfl, rfl⟩

/-- Witness for C5 at the fresh session with configuration path
"conf", the all-success stub binding and requested wavelength 600. -/
theorem c5_closed_query_raises_before_native_witness :
    (⟨"conf", none⟩ : LLTFState).handle = none ∧
    (LLTF.get_wave allSuccessLib ⟨"conf", none⟩
       = (Except.error PyError.typeError, ⟨"conf", none⟩, []) ∧
     LLTF.get_range allSuccessLib ⟨"conf", none⟩
       = (Except.error PyError.typeError, ⟨"conf", none⟩, []) ∧
     LLTF.system_count allSuccessLib ⟨"conf", none⟩
       = (Except.error PyError.typeError, ⟨"conf", none⟩, []) ∧
     LLTF.grating allSuccessLib ⟨"conf", none⟩
       = (Except.error PyError.typeError, ⟨"conf", none⟩, []) ∧
     LLTF.harmonic_filter allSuccessLib ⟨"conf", none⟩
       = (Except.error PyError.typeError, ⟨"conf", none⟩, []) ∧
     LLTF.set_wave allSuccessLib ⟨"conf", none⟩ 600
       = (Except.error PyError.typeError, ⟨"conf", none⟩, [])) :=
  ⟨rfl, c5_closed_query_raises_before_native allSuccessLib ⟨"conf", none⟩ 600 rfl⟩

/-- Claim C6.  The claim states that `set_wave(W)` with the device
already at W performs zero native set-calls, records a debug trace
and returns the no-op outcome.  The code has no tolerance comparison
at all: with the device reporting 600 on every read, `set_wave 600`
raises `TypeError` at its line-239 declaration from either state,
recording no debug trace and returning no outcome at all (it never
reads the current wavelength); and its written try-body, had the
declarations succeeded, would issue the native set-call
unconditionally even though the device already reports 600. -/
theorem c6_set_wave_has_no_tolerance_noop :
    LLTF.set_wave at600Lib ⟨"conf", none⟩ 600
      = (Except.error PyError.typeError, ⟨"conf", none⟩, []) ∧
    LLTF.set_wave at600Lib ⟨"conf", some 7⟩ 600
      = (Except.error PyError.typeError, ⟨"conf", some 7⟩, []) ∧
    (LLTF.set_waveAfterOpen at600Lib ⟨"conf", some 7⟩ 600).2.2.filter
        NativeEvent.isSetWavelength
      = [NativeEvent.callSetWavelength (some 7) 600] :=
  ⟨rfl, rfl, rfl⟩

/-- Claim C7.  The claim states that a requested wavelength inside the
second-harmonic range (500 to 1000 nm) is doubled before the native
set-call.  The code never doubles: the literally written body of
`set_wave` after a successful open passes 600 itself (not 1200) to
`PE_SetWavelength`, and the actual `set_wave` execution performs no
native set-call at all. -/
theorem c7_set_wave_never_doubles :
    (LLTF.set_waveAfterOpen at600Lib ⟨"conf", some 7⟩ 600).2.2
      = [NativeEvent.callSetWavelength (some 7) 600,
         NativeEvent.callGetWavelength (some 7)] ∧
    (LLTF.set_waveAfterOpen at600Lib ⟨"conf", some 7⟩ 600).1 = Except.ok true ∧
    (LLTF.set_wave at600Lib ⟨"conf", some 7⟩ 600).2.2.filter NativeEvent.isSetWavelength
      = [] :=
  ⟨rfl, rfl, rfl⟩

/-- Claim C8.  The claim states that each grating sub-step status is
checked independently, the first non-success aborting with an error
naming that sub-step and its status description.  The code has no
such checking: the real `grating()` raises `TypeError` at its
line-383 declaration before any native call, and its written body,
had the declarations succeeded, performs all three native calls
unconditionally and tests one conflated boolean expression — when
`PE_GetGrating` reports `PE_INVALID_GRATING` the name and count calls
are still issued and the raised error is the generic
"Could not retrieve grating.", the very same error value raised when
instead the count sub-step fails, so the message identifies neither
sub-step nor status. -/
theorem c8_grating_conflated_status_check :
    LLTF.grating gratingFailLib ⟨"conf", some 7⟩
      = (Except.error PyError.typeError, ⟨"conf", some 7⟩, []) ∧
    LLTF.gratingAsWritten gratingFailLib ⟨"conf", some 7⟩
      = (Except.error (PyError.lltfError "Could not retrieve grating."), ⟨"conf", some 7⟩,
         [NativeEvent.callGetGrating (some 7), NativeEvent.callGetGratingName (some 7) 0,
          NativeEvent.callGetGratingCount (some 7)]) ∧
    (LLTF.gratingAsWritten gratingCountFailLib ⟨"conf", some 7⟩).1
      = Except.error (PyError.lltfError "Could not retrieve grating.") :=
  ⟨rfl, rfl, rfl⟩

/-- Claim C9.  Status code 5 is `PE_INVALID_WAVELENGTH` and the
description lookup maps it to exactly "Requested wavelength is out of
bounds."; every code outside the fourteen enumerated values (0 to 13)
maps to the fallback "Unknown Error" text. -/
theorem c9_describe_lookup :
    PE_STATUS.code PE_STATUS.PE_INVALID_WAVELENGTH = 5 ∧
    describe 5 = "Requested wavelength is out of bounds." ∧
    ∀ c : Int, (c < 0 ∨ 13 < c) → describe c = "Unknown Error" := by
  refine ⟨rfl, rfl, ?_⟩
  intro c hc
  rcases hc with h | h
  all_goals unfold describe
  all_goals repeat rw [if_neg (by omega)]

/-- Witness for C9 at the unenumerated code 99. -/
theorem c9_describe_lookup_witness :
    (((99 : Int) < 0 ∨ (13 : Int) < 99) ∧ describe 99 = "Unknown Error") ∧
    describe 5 = "Requested wavelength is out of bounds." :=
  ⟨⟨Or.inr (by decide), c9_describe_lookup.2.2 99 (Or.inr (by decide))⟩,
   c9_describe_lookup.2.1⟩

/-- Counterexample to claim C10 as stated.  The claim attributes the
`TypeError` in `_open` to the zero-argument `PE_HANDLE()`
construction of line 109; in fact the declaration preamble raises at
`POINTER(PE_HANDLE)` on line 92, before the construction is ever
reached: the actual `_open` on a fresh session fails with an empty
event trace — in particular with no `constructPEHandle` event — while
the construction attempt appears only in the body as written, which
runs only under the counterfactual that the preamble succeeded. -/
theorem c10_pe_handle_ctor_never_reached :
    (LLTF._open allSuccessLib ⟨"conf", none⟩ 0).1 = Except.error PyError.typeError ∧
    (LLTF._open allSuccessLib ⟨"conf", none⟩ 0).2.2 = [] ∧
    (LLTF.openBodyAsWritten allSuccessLib ⟨"conf", none⟩ 0).2.2
      = [NativeEvent.constructPEHandle] :=
  ⟨rfl, rfl, rfl⟩

/-- Claim C10 as amended.  For every binding and every session in the
closed state, `_open` raises `TypeError` while performing no native
call and no state change — raised by the ctypes declaration
`POINTER(PE_HANDLE)` in the `pe_Create` argtypes assignment (lltf.py
line 92), so the zero-argument `PE_HANDLE()` construction on line 109
is never reached — and consequently neither `status()` nor
`set_wave()` on such a session ever performs the native `PE_Create`
call. -/
theorem c10_open_typeerror_in_preamble (lib : NativeLib) (s : LLTFState) (w : Rat)
    (h : s.handle = none) :
    LLTF._open lib s 0 = (Except.error PyError.typeError, s, []) ∧
    (LLTF.status lib s).2.2.filter NativeEvent.isCreate = [] ∧
    (LLTF.set_wave lib s w).2.2.filter NativeEvent.isCreate = [] :=
  ⟨rfl, rfl, rfl⟩

/-- Witness for the amended C10 at the fresh session with
configuration path "conf", the all-success stub binding and requested
wavelength 600. -/
theorem c10_open_typeerror_in_preamble_witness :
    (⟨"conf", none⟩ : LLTFState).handle = none ∧
    (LLTF._open allSuccessLib ⟨"conf", none⟩ 0
       = (Except.error PyError.typeError, ⟨"conf", none⟩, []) ∧
     (LLTF.status allSuccessLib ⟨"conf", none⟩).2.2.filter NativeEvent.isCreate = [] ∧
     (LLTF.set_wave allSuccessLib ⟨"conf", none⟩ 600).2.2.filter NativeEvent.isCreate
       = []) :=
  ⟨rfl, c10_open_typeerror_in_preamble allSuccessLib ⟨"conf", none⟩ 600 rfl⟩
